import Mathlib

/-!
Shallow embedding of the game-session automation engine of circuit-watcher
(src/src/main.rs).  The engine is the second spawned task of `main`
(lines 884-1367): an unbounded loop that, each cycle, snapshots the shared
operator state, fetches the gameflow session, and dispatches on the phase
string.  Network fetch results are modelled as inputs of the cycle (the
success case); the mutating outbound calls (accept POST, loadout PATCH,
ban PATCH, pick PATCH) are collected as an output list.  Places where the
Rust code calls `.unwrap()` on a value that can be `None` are modelled as
an explicit panic outcome, since a panic terminates the loop and process.
-/

namespace CircuitWatcher

/-- Mirrors `ActionResponseData` (main.rs lines 76-82): one entry of the
champ-select action queues. -/
structure ActionResponseData where
  actorCellId : Int
  completed : Bool
  id : Int
  isInProgress : Bool
  type : String
deriving DecidableEq, Repr

/-- Mirrors `MyTeamData` (main.rs lines 86-91): one roster entry of the
champ-select session. -/
structure MyTeamData where
  cellId : Int
  assignedPosition : String
  spell1Id : Nat
  spell2Id : Nat
deriving DecidableEq, Repr

/-- Mirrors `SummonerSpell` (main.rs lines 105-108): one entry of the
loadout-item catalog loaded from summoner_spells.json. -/
structure SummonerSpell where
  key : Nat
  name : String
deriving DecidableEq, Repr

/-- The mutating outbound HTTP calls the engine loop can issue in a cycle.
The PATCH bodies are built with `completed: true` at both build sites
(main.rs lines 1163-1170, 1224-1231, 1290-1297); the `completed` field of
the constructors records that literal. -/
inductive NetCall where
  | acceptPost
  | loadoutPatch (spell1Id spell2Id : Nat)
  | banPatch (actorCellId : Int) (championId : Nat) (completed : Bool) (id : Int)
  | pickPatch (actorCellId : Int) (championId : Nat) (completed : Bool) (id : Int)
deriving DecidableEq, Repr

/-- The `.unwrap()` sites of the engine cycle that can fail on a `None`:
the roster extraction (line 1031-1035), the second pick-queue index
(line 1206 and 1276), the catalog lookups (lines 1075-1082), and the
unwrap of a failed network call. -/
inductive PanicKind where
  | noTeamEntry
  | pickIndex
  | catalogMiss
  | netUnwrap
deriving DecidableEq, Repr

/-- The per-loop mutable state: the one-shot pick flag `locked_champ`
(line 928), the two loadout-slot preferences `selected_image1/2`, the
published `assigned_role` and `gameflow_status` strings. -/
structure EngineState where
  lockedChamp : Bool
  selected1 : Option String
  selected2 : Option String
  assignedRole : Option String
  status : String
deriving DecidableEq, Repr

/-- Everything one cycle of the engine loop reads: the snapshot of shared
operator state taken at the top of the loop (lines 962-971), the fetched
gameflow phase (line 984), and the fetched champ-select session pieces.
`grid` is the per-champion `selectionStatus.pickedByOtherOrBanned` flag
the cycle would observe on a grid-champions GET. -/
structure CycleInput where
  phase : Option String
  autoAccept : Bool
  pickBanSel : Bool
  spellSel : Bool
  championPicks : List (Nat × String)
  banPicks : Option (Nat × String)
  myTeam : List MyTeamData
  localPlayerCellId : Int
  actions : List (List ActionResponseData)
  timerPhase : Option String
  grid : Nat → Bool
  catalog : List SummonerSpell

/-- The observable outcome of one cycle: the mutating calls issued (in
order), the state after the cycle, the sleep the cycle ends with
(seconds; 0 when the loop re-enters immediately), and whether the cycle
panicked (`none` = ran to completion). -/
structure CycleOut where
  calls : List NetCall
  state : EngineState
  wait : Nat
  panicked : Option PanicKind
deriving Repr

/-- The closed phase classification of the spec data model: the dispatch
of the `match phase` at main.rs line 986, with unrecognized strings kept
as `unimplemented` and a missing/non-string field as `idle`. -/
inductive GameflowPhase where
  | matchmaking
  | lobby
  | readyCheck
  | champSelect
  | inProgress
  | waitingForStats
  | preEndOfGame
  | endOfGame
  | unimplemented (name : String)
  | idle
deriving DecidableEq, Repr

/-- Classification of the fetched phase string, following the arm order of
the `match phase` at main.rs line 986. -/
def classifyPhase : Option String → GameflowPhase
  | some "Matchmaking" => .matchmaking
  | some "Lobby" => .lobby
  | some "ReadyCheck" => .readyCheck
  | some "ChampSelect" => .champSelect
  | some "InProgress" => .inProgress
  | some "WaitingForStats" => .waitingForStats
  | some "PreEndOfGame" => .preEndOfGame
  | some "EndOfGame" => .endOfGame
  | some s => .unimplemented s
  | none => .idle

/-- Needle occurs as a contiguous prefix of the haystack character list. -/
def matchesAt : List Char → List Char → Bool
  | [], _ => true
  | _ :: _, [] => false
  | c :: cs, d :: ds => c == d && matchesAt cs ds

/-- Substring test on character lists, as `str::contains` on the role
string (main.rs line 1043). -/
def containsSub : List Char → List Char → Bool
  | [], needle => needle.isEmpty
  | hay@(_ :: tl), needle => matchesAt needle hay || containsSub tl needle

/-- `extracted_team_data.2.contains("jungle")` (main.rs line 1043). -/
def roleHasJungle (pos : String) : Bool :=
  containsSub pos.data "jungle".data

/-- The (id, isInProgress, type, completed) tuple extracted from one
filtered action (main.rs lines 1136-1147). -/
structure ActTuple where
  id : Int
  ip : Bool
  ty : String
  comp : Bool
deriving DecidableEq, Repr

/-- The action tuple at index `i` of the filtered local-player actions,
falling back to the `(0, false, "", false)` sentinel of
`unwrap_or` (main.rs lines 1149-1159). -/
def actAt (l : List ActionResponseData) (i : Nat) : ActTuple :=
  match l.get? i with
  | some d => ⟨d.id, d.isInProgress, d.type, d.completed⟩
  | none => ⟨0, false, "", false⟩

/-- The local-player actions: queues flattened, filtered on
`actorCellId == localPlayerCellId`, limited to two (main.rs 1127-1135). -/
def localActs (inp : CycleInput) : List ActionResponseData :=
  ((inp.actions.flatten).filter (fun d => d.actorCellId == inp.localPlayerCellId)).take 2

/-- The ban action tuple of a cycle: index 0 of the filtered actions. -/
def banTupleOf (inp : CycleInput) : ActTuple :=
  actAt (localActs inp) 0

/-- The pick action tuple of a cycle: index 1 of the filtered actions. -/
def pickTupleOf (inp : CycleInput) : ActTuple :=
  actAt (localActs inp) 1

/-- Result of the summoner-spell section (main.rs lines 1038-1099): the
two slot preferences after the section, the loadout PATCH if one was
sent, whether the section ended the cycle (the `continue` statements of
the jungle override), and whether a catalog `.find().unwrap()` panicked. -/
structure SpellOut where
  sel1 : Option String
  sel2 : Option String
  calls : List NetCall
  stop : Bool
  panicked : Option PanicKind
deriving Repr

/-- The summoner-spell section of the ChampSelect arm (main.rs lines
1038-1099).  `t1`, `t2` are the session-reported current spell1Id and
spell2Id of the local roster entry; `pos` its assigned position.  The
jungle override branches on `t1`/`t2` (4 = Flash, 6 = Ghost) and each of
its arms rewrites the stored preferences and ends the cycle with
`continue`; otherwise both names are resolved through the catalog and a
single PATCH with both ids is issued. -/
def spellStep (spellSel : Bool) (s1 s2 : Option String) (t1 t2 : Nat)
    (pos : String) (catalog : List SummonerSpell) : SpellOut :=
  if spellSel then
    match s1, s2 with
    | some a, some b =>
      if roleHasJungle pos && !(a == "Smite") && !(b == "Smite") then
        if t1 == 4 then ⟨some "Flash", some "Smite", [], true, none⟩
        else if t1 == 6 then ⟨some "Ghost", some "Smite", [], true, none⟩
        else if t2 == 4 then ⟨some "Smite", some "Flash", [], true, none⟩
        else if t2 == 6 then ⟨some "Smite", some "Ghost", [], true, none⟩
        else ⟨some "Smite", some b, [], true, none⟩
      else
        match catalog.find? (fun sp => sp.name == a),
              catalog.find? (fun sp => sp.name == b) with
        | some sp1, some sp2 =>
            ⟨some a, some b, [NetCall.loadoutPatch sp1.key sp2.key], false, none⟩
        | _, _ => ⟨some a, some b, [], false, some .catalogMiss⟩
    | s1, s2 => ⟨s1, s2, [], false, none⟩
  else ⟨s1, s2, [], false, none⟩

/-- The ban-commitment section (main.rs lines 1161-1202): if a ban
preference with a non-empty name exists and the ban action is in
progress, not completed, its champion not reported picked-or-banned, and
the timer phase is not PLANNING, a completed ban PATCH is issued.  No
flag records the commit. -/
def banStep (lpc : Int) (banPref : Option (Nat × String)) (banT : ActTuple)
    (grid : Nat → Bool) (planning : Bool) : List NetCall :=
  match banPref with
  | some (cid, nm) =>
    if nm.isEmpty then []
    else if banT.ip && !banT.comp && !(grid cid) && !planning then
      [NetCall.banPatch lpc cid true banT.id]
    else []
  | none => []

/-- Outcome of processing one queued pick candidate: the calls issued,
the pick flag afterwards, and whether the candidate block ended the whole
cycle (a `continue`). -/
structure CandOut where
  calls : List NetCall
  locked : Bool
  stop : Bool
deriving Repr

/-- Processing of one pick candidate (main.rs lines 1210-1270 for the
first, 1276-1336 for the second; the two blocks are identical up to the
queue index).  An empty-name candidate is skipped silently.  Otherwise:
the combined resolved-or-planning guard and the not-in-progress guard
each end the cycle; the commit itself requires the pick action in
progress and not completed, the ban action not in progress and completed,
the champion not picked-or-banned, and the `locked_champ` flag clear, and
sets the flag. -/
def candStep (lpc : Int) (cand : Nat × String) (pickT banT : ActTuple)
    (grid : Nat → Bool) (planning : Bool) (locked : Bool) : CandOut :=
  if cand.2.isEmpty then ⟨[], locked, false⟩
  else if (!pickT.ip && pickT.comp && !banT.ip && banT.comp) || planning then
    ⟨[], locked, true⟩
  else if !pickT.ip then ⟨[], locked, true⟩
  else if !(grid cand.1) then
    if pickT.ip && !pickT.comp && !banT.ip && banT.comp
        && !(grid cand.1) && !locked then
      ⟨[NetCall.pickPatch lpc cand.1 true pickT.id], true, false⟩
    else ⟨[], locked, false⟩
  else ⟨[], locked, false⟩

/-- The pick-commitment section (main.rs lines 1204-1337).  With a
non-empty queue, an empty first name forces the unconditional
`champion_picks.get(1).unwrap()` of line 1206: on a one-element queue
this is a panic.  A double empty ends the cycle.  Candidate one is
processed, then, unless the queue has length one, candidate two with the
flag left by candidate one.  Both candidates PATCH the same pick action
id.  Split here in three: `pickAfterCand1` is the tail from the
length-one gate on (main.rs lines 1272-1336), `pickMain` chains candidate
one into it, and `pickSection` handles the empty-queue and empty-name
gates (lines 1204-1209). -/
def pickAfterCand1 (lpc : Int) (picks : List (Nat × String)) (pickT banT : ActTuple)
    (grid : Nat → Bool) (planning : Bool) (c1 : CandOut) :
    List NetCall × Bool × Option PanicKind :=
  if c1.stop then (c1.calls, c1.locked, none)
  else if picks.length == 1 then (c1.calls, c1.locked, none)
  else
    match picks.get? 1 with
    | none => (c1.calls, c1.locked, some .pickIndex)
    | some p1 =>
      (c1.calls ++ (candStep lpc p1 pickT banT grid planning c1.locked).calls,
        (candStep lpc p1 pickT banT grid planning c1.locked).locked, none)

def pickMain (lpc : Int) (picks : List (Nat × String)) (p0 : Nat × String)
    (pickT banT : ActTuple) (grid : Nat → Bool) (planning : Bool) (locked : Bool) :
    List NetCall × Bool × Option PanicKind :=
  pickAfterCand1 lpc picks pickT banT grid planning
    (candStep lpc p0 pickT banT grid planning locked)

def pickSection (lpc : Int) (picks : List (Nat × String)) (pickT banT : ActTuple)
    (grid : Nat → Bool) (planning : Bool) (locked : Bool) :
    List NetCall × Bool × Option PanicKind :=
  match picks.head? with
  | none => ([], locked, none)
  | some p0 =>
    if p0.2.isEmpty then
      match picks.get? 1 with
      | none => ([], locked, some .pickIndex)
      | some p1 =>
        if p1.2.isEmpty then ([], locked, none)
        else pickMain lpc picks p0 pickT banT grid planning locked
    else pickMain lpc picks p0 pickT banT grid planning locked

/-- The ChampSelect arm of the phase dispatch (main.rs lines 1010-1338):
roster extraction and role publication, the summoner-spell section, the
auto pick/ban gate and status updates, the queued-selection gate, the
action extraction, the ban section and the pick section in that order. -/
def champSelectStep (inp : CycleInput) (st : EngineState) : CycleOut :=
  match (inp.myTeam.filter (fun d => d.cellId == inp.localPlayerCellId)).head? with
  | none => ⟨[], st, 0, some .noTeamEntry⟩
  | some td =>
    let st1 := { st with assignedRole := some td.assignedPosition }
    let so := spellStep inp.spellSel st1.selected1 st1.selected2
        td.spell1Id td.spell2Id td.assignedPosition inp.catalog
    let st2 := { st1 with selected1 := so.sel1, selected2 := so.sel2 }
    if so.panicked.isSome then ⟨so.calls, st2, 0, so.panicked⟩
    else if so.stop then ⟨so.calls, st2, 0, none⟩
    else if !inp.pickBanSel then
      ⟨so.calls, { st2 with status := "Champion Selection" }, 0, none⟩
    else
      let st3 := { st2 with status := "Champion Selection with Auto-pick/ban ON" }
      if inp.championPicks.isEmpty && inp.banPicks.isNone then
        ⟨so.calls, st3, 0, none⟩
      else
        let banT := banTupleOf inp
        let pickT := pickTupleOf inp
        let planning := inp.timerPhase == some "PLANNING"
        let banCalls := banStep inp.localPlayerCellId inp.banPicks banT inp.grid planning
        let pr := pickSection inp.localPlayerCellId inp.championPicks pickT banT
            inp.grid planning st3.lockedChamp
        ⟨so.calls ++ banCalls ++ pr.1, { st3 with lockedChamp := pr.2.1 }, 0, pr.2.2⟩

/-- One cycle of the engine loop: the phase dispatch of main.rs lines
986-1365, with the per-arm status text, role clearing, `locked_champ`
reset (Matchmaking only), accept POST (ReadyCheck, toggle on), and sleep
durations. -/
def cycleStep (inp : CycleInput) (st : EngineState) : CycleOut :=
  match classifyPhase inp.phase with
  | .matchmaking =>
      ⟨[], { st with assignedRole := none, status := "Looking for a match", lockedChamp := false }, 0, none⟩
  | .lobby =>
      ⟨[], { st with assignedRole := none, status := "In Lobby" }, 0, none⟩
  | .readyCheck =>
      ⟨if inp.autoAccept then [NetCall.acceptPost] else [],
        { st with status := "Match Found" }, 0, none⟩
  | .champSelect => champSelectStep inp st
  | .inProgress =>
      ⟨[], { st with status := "Game in progress..." }, 20, none⟩
  | .waitingForStats =>
      ⟨[], { st with status := "Waiting for Stats" }, 2, none⟩
  | .preEndOfGame =>
      ⟨[], { st with status := "Game in progress..." }, 10, none⟩
  | .endOfGame =>
      ⟨[], { st with assignedRole := none, status := "Game Ending..." }, 5, none⟩
  | .unimplemented s =>
      ⟨[], { st with assignedRole := none, status := "Unimplemented Phase: " ++ s }, 10, none⟩
  | .idle =>
      ⟨[], { st with status := "Idling..." }, 0, none⟩

/-- A run of consecutive cycles: states are threaded, calls concatenated,
and a panic stops the loop (the process dies), reporting the calls made
up to and including the panicking cycle. -/
def runCycles (inps : List CycleInput) (st : EngineState) :
    EngineState × List NetCall × Option PanicKind :=
  match inps with
  | [] => (st, [], none)
  | i :: is =>
    let o := cycleStep i st
    match o.panicked with
    | some pk => (o.state, o.calls, some pk)
    | none =>
      let r := runCycles is o.state
      (r.1, o.calls ++ r.2.1, r.2.2)

/-- The engine cycle seen through a fallible gameflow fetch: the code
unwraps the send and deserialization results (main.rs lines 973-983), so
an error result is a process-terminating panic before the dispatch. -/
def cycleStepNet (fetch : Except Unit CycleInput) (st : EngineState) : CycleOut :=
  match fetch with
  | .error _ => ⟨[], st, 0, some .netUnwrap⟩
  | .ok inp => cycleStep inp st

/-- Mirrors the presentation-layer warning gate (main.rs lines 395-399):
the "Both summoner spells need to be selected" label is shown exactly
when a slot is unset while auto-selection is on. -/
def bothSlotsWarning (spellSel : Bool) (s1 s2 : Option String) : Bool :=
  (s1.isNone || s2.isNone) && spellSel

/-- Call classifiers and counter. -/
def isPickCall : NetCall → Bool
  | .pickPatch _ _ _ _ => true
  | _ => false

def isBanCall : NetCall → Bool
  | .banPatch _ _ _ _ => true
  | _ => false

def isAcceptCall : NetCall → Bool
  | .acceptPost => true
  | _ => false

def isLoadoutCall : NetCall → Bool
  | .loadoutPatch _ _ => true
  | _ => false

def countCalls (p : NetCall → Bool) (cs : List NetCall) : Nat :=
  (cs.filter p).length

/-! Concrete inputs used by counterexamples and witnesses. -/

/-- The all-clear initial engine state. -/
def st0 : EngineState := ⟨false, none, none, none, ""⟩

/-- A ChampSelect cycle whose observations keep the ban action eligible:
ban preference (42, "z") set, ban action in progress and not completed,
champion available, timer not in PLANNING. -/
def banEligibleInp : CycleInput :=
  ⟨some "ChampSelect", false, true, false, [], some (42, "z"),
    [⟨0, "", 0, 0⟩], 0, [[⟨0, false, 5, true, "ban"⟩]], some "BAN_PICK",
    fun _ => false, []⟩

/-- A ChampSelect cycle whose observations make the single queued pick
(5, "a") eligible: pick action in progress and not completed, ban action
completed and not in progress, champion available, timer not PLANNING. -/
def pickEligibleInp : CycleInput :=
  ⟨some "ChampSelect", false, true, false, [(5, "a")], none,
    [⟨0, "", 0, 0⟩], 0,
    [[⟨0, true, 1, false, "ban"⟩, ⟨0, false, 2, true, "pick"⟩]],
    some "BAN_PICK", fun _ => false, []⟩

/-- A ChampSelect cycle with two queued picks (1, "a") and (2, "b") where
the grid reports champion 1 (and only champion 1) picked-or-banned, and
the pick action is otherwise eligible. -/
def fallbackInp : CycleInput :=
  ⟨some "ChampSelect", false, true, false, [(1, "a"), (2, "b")], none,
    [⟨0, "", 0, 0⟩], 0,
    [[⟨0, true, 1, false, "ban"⟩, ⟨0, false, 2, true, "pick"⟩]],
    some "BAN_PICK", fun c => c == 1, []⟩

/-- A ChampSelect cycle whose pick queue is the single explicit skip
placeholder (0, ""). -/
def singleSkipInp : CycleInput :=
  ⟨some "ChampSelect", false, true, false, [(0, "")], none,
    [⟨0, "", 0, 0⟩], 0, [], none, fun _ => false, []⟩

/-- Engine state with loadout slots chosen as Flash and Heal. -/
def flashHealState : EngineState := ⟨false, some "Flash", some "Heal", none, ""⟩

/-- A ChampSelect cycle with loadout auto-selection on, the jungle role
assigned, and the session reporting current spell ids (6, 1): the current
first spell is Ghost. -/
def jungleGhostInp : CycleInput :=
  ⟨some "ChampSelect", false, false, true, [], none,
    [⟨0, "jungle", 6, 1⟩], 0, [], none, fun _ => false,
    [⟨4, "Flash"⟩, ⟨7, "Heal"⟩, ⟨11, "Smite"⟩]⟩

/-- A ReadyCheck cycle with auto-accept enabled. -/
def readyAcceptInp : CycleInput :=
  ⟨some "ReadyCheck", true, false, false, [], none, [], 0, [], none,
    fun _ => false, []⟩

/-- A Lobby cycle. -/
def lobbyInp : CycleInput :=
  ⟨some "Lobby", false, false, false, [], none, [], 0, [], none,
    fun _ => false, []⟩

/-- An InProgress cycle. -/
def inProgressInp : CycleInput :=
  ⟨some "InProgress", false, false, false, [], none, [], 0, [], none,
    fun _ => false, []⟩

/-- A Matchmaking cycle. -/
def matchmakingInp : CycleInput :=
  ⟨some "Matchmaking", false, false, false, [], none, [], 0, [], none,
    fun _ => false, []⟩

/-- Engine state with the one-shot pick flag already set. -/
def stLocked : EngineState := ⟨true, none, none, none, ""⟩

/-- A ChampSelect cycle with loadout auto-selection on while the engine
state has no slot names chosen. -/
def unsetSlotInp : CycleInput :=
  ⟨some "ChampSelect", false, false, true, [], none,
    [⟨0, "", 0, 0⟩], 0, [], none, fun _ => false, []⟩

/-- One row of the phase table of the spec (section 4.2): the status text
the cycle must publish, whether the cycle clears the assigned role,
whether it clears the per-session commit flag, whether it issues the
accept POST when the auto-accept toggle is on, and the wait in seconds
(0 = loop immediately). -/
structure PhaseRow where
  status : String
  clearsRole : Bool
  clearsFlag : Bool
  acceptOnToggle : Bool
  wait : Nat
deriving DecidableEq, Repr

/-- The phase table, written from the words of the spec (section 4.2);
the ellipsis of the table is rendered as the three ASCII dots of the
status strings.  The ChampSelect row is delegated by the spec and is not
used. -/
def specPhaseRow : GameflowPhase → PhaseRow
  | .matchmaking => ⟨"Looking for a match", true, true, false, 0⟩
  | .lobby => ⟨"In Lobby", true, false, false, 0⟩
  | .readyCheck => ⟨"Match Found", false, false, true, 0⟩
  | .champSelect => ⟨"", false, false, false, 0⟩
  | .inProgress => ⟨"Game in progress...", false, false, false, 20⟩
  | .waitingForStats => ⟨"Waiting for Stats", false, false, false, 2⟩
  | .preEndOfGame => ⟨"Game in progress...", false, false, false, 10⟩
  | .endOfGame => ⟨"Game Ending...", true, false, false, 5⟩
  | .unimplemented s => ⟨"Unimplemented Phase: " ++ s, true, false, false, 10⟩
  | .idle => ⟨"Idling...", false, false, false, 0⟩

/-! Shape lemmas for the call lists of each section. -/

/-- The spell section issues no call or exactly one loadout PATCH. -/
theorem spellStep_shape (sel : Bool) (s1 s2 : Option String) (t1 t2 : Nat)
    (pos : String) (cat : List SummonerSpell) :
    (spellStep sel s1 s2 t1 t2 pos cat).calls = [] ∨
      ∃ k1 k2, (spellStep sel s1 s2 t1 t2 pos cat).calls = [NetCall.loadoutPatch k1 k2] := by
  unfold spellStep
  repeat' split
  all_goals first
    | exact Or.inl rfl
    | exact Or.inr ⟨_, _, rfl⟩

/-- The spell section issues no pick PATCH. -/
theorem spellStep_filter_pick (sel : Bool) (s1 s2 : Option String) (t1 t2 : Nat)
    (pos : String) (cat : List SummonerSpell) :
    (spellStep sel s1 s2 t1 t2 pos cat).calls.filter isPickCall = [] := by
  rcases spellStep_shape sel s1 s2 t1 t2 pos cat with h | ⟨k1, k2, h⟩ <;>
    simp [h, isPickCall]

/-- The spell section issues at most one loadout PATCH. -/
theorem spellStep_filter_loadout_len (sel : Bool) (s1 s2 : Option String) (t1 t2 : Nat)
    (pos : String) (cat : List SummonerSpell) :
    ((spellStep sel s1 s2 t1 t2 pos cat).calls.filter isLoadoutCall).length ≤ 1 := by
  rcases spellStep_shape sel s1 s2 t1 t2 pos cat with h | ⟨k1, k2, h⟩ <;>
    simp [h, isLoadoutCall]

/-- The ban section issues no call or exactly one completed ban PATCH
for the ban action id. -/
theorem banStep_shape (lpc : Int) (bp : Option (Nat × String)) (t : ActTuple)
    (g : Nat → Bool) (pl : Bool) :
    banStep lpc bp t g pl = [] ∨
      ∃ cid, banStep lpc bp t g pl = [NetCall.banPatch lpc cid true t.id] := by
  unfold banStep
  repeat' split
  all_goals first
    | exact Or.inl rfl
    | exact Or.inr ⟨_, rfl⟩

/-- The ban section issues no pick PATCH. -/
theorem banStep_filter_pick (lpc : Int) (bp : Option (Nat × String)) (t : ActTuple)
    (g : Nat → Bool) (pl : Bool) :
    (banStep lpc bp t g pl).filter isPickCall = [] := by
  rcases banStep_shape lpc bp t g pl with h | ⟨cid, h⟩ <;> simp [h, isPickCall]

/-- The ban section issues no loadout PATCH. -/
theorem banStep_filter_loadout (lpc : Int) (bp : Option (Nat × String)) (t : ActTuple)
    (g : Nat → Bool) (pl : Bool) :
    (banStep lpc bp t g pl).filter isLoadoutCall = [] := by
  rcases banStep_shape lpc bp t g pl with h | ⟨cid, h⟩ <;> simp [h, isLoadoutCall]

/-- Exhaustive characterization of one candidate block: it is silent
(flag unchanged), it ends the cycle (flag unchanged), or it commits; and
a commit can only happen with the pick action in progress and not
completed, the ban action not in progress and completed, the champion
available, and the flag clear, after which the flag is set. -/
theorem candStep_cases (lpc : Int) (cand : Nat × String) (pT bT : ActTuple)
    (g : Nat → Bool) (pl : Bool) (lk : Bool) :
    candStep lpc cand pT bT g pl lk = ⟨[], lk, false⟩ ∨
    candStep lpc cand pT bT g pl lk = ⟨[], lk, true⟩ ∨
    (pT.ip = true ∧ pT.comp = false ∧ bT.ip = false ∧ bT.comp = true ∧
      g cand.1 = false ∧ lk = false ∧
      candStep lpc cand pT bT g pl lk =
        ⟨[NetCall.pickPatch lpc cand.1 true pT.id], true, false⟩) := by
  unfold candStep
  repeat' split
  all_goals first
    | exact Or.inl rfl
    | exact Or.inr (Or.inl rfl)
    | (refine Or.inr (Or.inr ⟨?_, ?_, ?_, ?_, ?_, ?_, rfl⟩) <;> simp_all)

/-- Exhaustive characterization of the two-candidate chain: either no
pick PATCH is issued and the flag is unchanged, or exactly one pick PATCH
is issued for some champion, the flag set, with the ban action completed
and not in progress, the champion available, and the flag clear at
entry. -/
theorem pickMain_cases (lpc : Int) (picks : List (Nat × String)) (p0 : Nat × String)
    (pT bT : ActTuple) (g : Nat → Bool) (pl : Bool) (lk : Bool) :
    ((pickMain lpc picks p0 pT bT g pl lk).1 = [] ∧
      (pickMain lpc picks p0 pT bT g pl lk).2.1 = lk) ∨
    (∃ ch, (pickMain lpc picks p0 pT bT g pl lk).1 = [NetCall.pickPatch lpc ch true pT.id] ∧
      (pickMain lpc picks p0 pT bT g pl lk).2.1 = true ∧
      bT.comp = true ∧ bT.ip = false ∧ g ch = false ∧ lk = false) := by
  unfold pickMain pickAfterCand1
  rcases candStep_cases lpc p0 pT bT g pl lk with h1 | h1 |
      ⟨hip, hcomp, hbip, hbcomp, hg, hlk, h1⟩ <;> rw [h1] <;> dsimp only
  · split
    · rename_i hff; exact absurd hff (by simp)
    · split
      · exact Or.inl ⟨rfl, rfl⟩
      · split
        · exact Or.inl ⟨rfl, rfl⟩
        · rename_i p1 hp1
          rcases candStep_cases lpc p1 pT bT g pl lk with h2 | h2 |
              ⟨hip2, hcomp2, hbip2, hbcomp2, hg2, hlk2, h2⟩ <;> rw [h2] <;> dsimp only
          · exact Or.inl ⟨rfl, rfl⟩
          · exact Or.inl ⟨rfl, rfl⟩
          · exact Or.inr ⟨p1.1, by simp, rfl, hbcomp2, hbip2, hg2, hlk2⟩
  · split
    · exact Or.inl ⟨rfl, rfl⟩
    · rename_i htt; exact absurd rfl htt
  · split
    · rename_i hff; exact absurd hff (by simp)
    · split
      · exact Or.inr ⟨p0.1, rfl, rfl, hbcomp, hbip, hg, hlk⟩
      · split
        · exact Or.inr ⟨p0.1, rfl, rfl, hbcomp, hbip, hg, hlk⟩
        · rename_i p1 hp1
          rcases candStep_cases lpc p1 pT bT g pl true with h2 | h2 |
              ⟨hip2, hcomp2, hbip2, hbcomp2, hg2, hlk2, h2⟩ <;> rw [h2] <;> dsimp only
          · exact Or.inr ⟨p0.1, by simp, rfl, hbcomp, hbip, hg, hlk⟩
          · exact Or.inr ⟨p0.1, by simp, rfl, hbcomp, hbip, hg, hlk⟩
          · exact absurd hlk2 (by simp)

/-- The characterization of `pickMain_cases` lifted over the empty-queue
and empty-name gates of the pick section. -/
theorem pickSection_cases (lpc : Int) (picks : List (Nat × String))
    (pT bT : ActTuple) (g : Nat → Bool) (pl : Bool) (lk : Bool) :
    ((pickSection lpc picks pT bT g pl lk).1 = [] ∧
      (pickSection lpc picks pT bT g pl lk).2.1 = lk) ∨
    (∃ ch, (pickSection lpc picks pT bT g pl lk).1 = [NetCall.pickPatch lpc ch true pT.id] ∧
      (pickSection lpc picks pT bT g pl lk).2.1 = true ∧
      bT.comp = true ∧ bT.ip = false ∧ g ch = false ∧ lk = false) := by
  unfold pickSection
  repeat' split
  all_goals first
    | exact Or.inl ⟨rfl, rfl⟩
    | exact pickMain_cases lpc picks _ pT bT g pl lk


/-- With either slot preference unset, the spell section issues no
call (the `is_some` guard of main.rs line 1042). -/
theorem spellStep_unset (sel : Bool) (s1 s2 : Option String) (t1 t2 : Nat)
    (pos : String) (cat : List SummonerSpell) (h : s1 = none ∨ s2 = none) :
    (spellStep sel s1 s2 t1 t2 pos cat).calls = [] := by
  rcases h with h | h <;> subst h <;> cases sel <;>
    first
    | rfl
    | (cases s1 <;> rfl)

/-- A ChampSelect cycle issues no pick PATCH and preserves the flag, or
issues exactly one pick PATCH under the commit guards and sets the
flag. -/
theorem champSelect_pick_cases (inp : CycleInput) (st : EngineState) :
    ((champSelectStep inp st).calls.filter isPickCall = [] ∧
      (champSelectStep inp st).state.lockedChamp = st.lockedChamp) ∨
    (∃ ch, (champSelectStep inp st).calls.filter isPickCall
        = [NetCall.pickPatch inp.localPlayerCellId ch true (pickTupleOf inp).id] ∧
      (champSelectStep inp st).state.lockedChamp = true ∧
      (banTupleOf inp).comp = true ∧ (banTupleOf inp).ip = false ∧
      inp.grid ch = false ∧ st.lockedChamp = false) := by
  unfold champSelectStep
  split
  · exact Or.inl ⟨rfl, rfl⟩
  · rename_i td htd
    dsimp only
    split
    · exact Or.inl ⟨by rw [spellStep_filter_pick], rfl⟩
    · split
      · exact Or.inl ⟨by rw [spellStep_filter_pick], rfl⟩
      · split
        · exact Or.inl ⟨by rw [spellStep_filter_pick], rfl⟩
        · split
          · exact Or.inl ⟨by rw [spellStep_filter_pick], rfl⟩
          · rcases pickSection_cases inp.localPlayerCellId inp.championPicks
                (pickTupleOf inp) (banTupleOf inp) inp.grid
                (inp.timerPhase == some "PLANNING") st.lockedChamp with
              ⟨hnil, hlk⟩ | ⟨ch, hone, hlk, hbc, hbi, hgch, hl0⟩
            · refine Or.inl ⟨?_, ?_⟩
              · rw [List.filter_append, List.filter_append,
                  spellStep_filter_pick, banStep_filter_pick, hnil]
                rfl
              · exact hlk
            · refine Or.inr ⟨ch, ?_, ?_, hbc, hbi, hgch, hl0⟩
              · rw [List.filter_append, List.filter_append,
                  spellStep_filter_pick, banStep_filter_pick, hone]
                rfl
              · exact hlk


/-- `champSelect_pick_cases` lifted over the phase dispatch: only the
ChampSelect arm can issue a pick PATCH. -/
theorem cycle_filter_pick_cases (inp : CycleInput) (st : EngineState) :
    ((cycleStep inp st).calls.filter isPickCall = []) ∨
    (∃ ch, (cycleStep inp st).calls.filter isPickCall
        = [NetCall.pickPatch inp.localPlayerCellId ch true (pickTupleOf inp).id] ∧
      (cycleStep inp st).state.lockedChamp = true ∧
      (banTupleOf inp).comp = true ∧ (banTupleOf inp).ip = false ∧
      inp.grid ch = false ∧ st.lockedChamp = false) := by
  unfold cycleStep
  split
  · exact Or.inl rfl
  · exact Or.inl rfl
  · rcases inp.autoAccept with _ | _ <;> exact Or.inl rfl
  · rcases champSelect_pick_cases inp st with ⟨h, _⟩ | ⟨ch, h1, h2, h3, h4, h5, h6⟩
    · exact Or.inl h
    · exact Or.inr ⟨ch, h1, h2, h3, h4, h5, h6⟩
  all_goals exact Or.inl rfl

/-- A cycle not observing Matchmaking and issuing no pick PATCH leaves
the flag unchanged. -/
theorem cycle_locked_pres (inp : CycleInput) (st : EngineState)
    (hph : classifyPhase inp.phase ≠ GameflowPhase.matchmaking)
    (hnil : (cycleStep inp st).calls.filter isPickCall = []) :
    (cycleStep inp st).state.lockedChamp = st.lockedChamp := by
  unfold cycleStep at hnil ⊢
  split at hnil
  all_goals rename_i hcl
  · exact absurd hcl hph
  · rfl
  · rfl
  · rcases champSelect_pick_cases inp st with ⟨h, hlk⟩ | ⟨ch, h1, h2, h3, h4, h5, h6⟩
    · exact hlk
    · rw [h1] at hnil; exact absurd hnil (by simp)
  all_goals rfl


/-- With the flag set and no Matchmaking observation, a run issues no
pick PATCH at all. -/
theorem runCycles_pick_zero (inps : List CycleInput) (st : EngineState)
    (hm : ∀ i ∈ inps, classifyPhase i.phase ≠ GameflowPhase.matchmaking)
    (hlk : st.lockedChamp = true) :
    ((runCycles inps st).2.1).filter isPickCall = [] := by
  induction inps generalizing st with
  | nil => rfl
  | cons i is ih =>
    have hmi : classifyPhase i.phase ≠ GameflowPhase.matchmaking := hm i (by simp)
    have hnil : (cycleStep i st).calls.filter isPickCall = [] := by
      rcases cycle_filter_pick_cases i st with h | ⟨ch, h1, h2, h3, h4, h5, h6⟩
      · exact h
      · rw [hlk] at h6; exact absurd h6 (by simp)
    have hpres := cycle_locked_pres i st hmi hnil
    unfold runCycles
    dsimp only
    split
    · exact hnil
    · rw [List.filter_append, hnil, ih (cycleStep i st).state
        (fun j hj => hm j (by simp [hj]))
        (by rw [hpres, hlk])]
      rfl

/-- With the flag clear and no Matchmaking observation, a run issues at
most one pick PATCH. -/
theorem runCycles_pick_once (inps : List CycleInput) (st : EngineState)
    (hm : ∀ i ∈ inps, classifyPhase i.phase ≠ GameflowPhase.matchmaking)
    (hlk : st.lockedChamp = false) :
    (((runCycles inps st).2.1).filter isPickCall).length ≤ 1 := by
  induction inps generalizing st with
  | nil => simp [runCycles]
  | cons i is ih =>
    have hmi : classifyPhase i.phase ≠ GameflowPhase.matchmaking := hm i (by simp)
    unfold runCycles
    dsimp only
    rcases cycle_filter_pick_cases i st with h | ⟨ch, h1, h2, h3, h4, h5, h6⟩
    · have hpres := cycle_locked_pres i st hmi h
      split
      · rw [h]; simp
      · rw [List.filter_append, h]
        simpa using ih (cycleStep i st).state
          (fun j hj => hm j (by simp [hj])) (by rw [hpres, hlk])
    · split
      · rw [h1]; simp
      · rw [List.filter_append, h1,
          runCycles_pick_zero is (cycleStep i st).state
            (fun j hj => hm j (by simp [hj])) h2]
        simp


/-- The pick section issues no loadout PATCH. -/
theorem pickSection_filter_loadout (lpc : Int) (picks : List (Nat × String))
    (pT bT : ActTuple) (g : Nat → Bool) (pl : Bool) (lk : Bool) :
    ((pickSection lpc picks pT bT g pl lk).1).filter isLoadoutCall = [] := by
  rcases pickSection_cases lpc picks pT bT g pl lk with ⟨h, _⟩ | ⟨ch, h, _⟩ <;> rw [h] <;> rfl

/-- With either slot preference unset, a ChampSelect cycle issues no
loadout PATCH. -/
theorem champSelect_loadout_unset (inp : CycleInput) (st : EngineState)
    (h : st.selected1 = none ∨ st.selected2 = none) :
    (champSelectStep inp st).calls.filter isLoadoutCall = [] := by
  unfold champSelectStep
  split
  · rfl
  · rename_i td htd
    dsimp only
    have hs := spellStep_unset inp.spellSel st.selected1 st.selected2
      td.spell1Id td.spell2Id td.assignedPosition inp.catalog h
    split
    · rw [hs]; rfl
    · split
      · rw [hs]; rfl
      · split
        · rw [hs]; rfl
        · split
          · rw [hs]; rfl
          · rw [List.filter_append, List.filter_append, hs,
              banStep_filter_loadout, pickSection_filter_loadout]
            rfl

/-- A ChampSelect cycle issues at most one loadout PATCH. -/
theorem champSelect_loadout_len (inp : CycleInput) (st : EngineState) :
    ((champSelectStep inp st).calls.filter isLoadoutCall).length ≤ 1 := by
  unfold champSelectStep
  split
  · simp
  · rename_i td htd
    dsimp only
    split
    · exact spellStep_filter_loadout_len _ _ _ _ _ _ _
    · split
      · exact spellStep_filter_loadout_len _ _ _ _ _ _ _
      · split
        · exact spellStep_filter_loadout_len _ _ _ _ _ _ _
        · split
          · exact spellStep_filter_loadout_len _ _ _ _ _ _ _
          · rw [List.filter_append, List.filter_append,
              banStep_filter_loadout, pickSection_filter_loadout]
            simpa using spellStep_filter_loadout_len inp.spellSel st.selected1
              st.selected2 td.spell1Id td.spell2Id td.assignedPosition inp.catalog

/-- With either slot preference unset, no cycle issues a loadout
PATCH. -/
theorem cycle_loadout_unset (inp : CycleInput) (st : EngineState)
    (h : st.selected1 = none ∨ st.selected2 = none) :
    (cycleStep inp st).calls.filter isLoadoutCall = [] := by
  unfold cycleStep
  split
  · rfl
  · rfl
  · rcases inp.autoAccept with _ | _ <;> rfl
  · exact champSelect_loadout_unset inp st h
  all_goals rfl

/-- Every cycle issues at most one loadout PATCH. -/
theorem cycle_loadout_len (inp : CycleInput) (st : EngineState) :
    ((cycleStep inp st).calls.filter isLoadoutCall).length ≤ 1 := by
  unfold cycleStep
  split
  · simp
  · simp
  · rcases inp.autoAccept with _ | _ <;> simp [isLoadoutCall]
  · exact champSelect_loadout_len inp st
  all_goals simp

/-- Every pick PATCH a cycle issues targets the local seat, carries
completed true and the pick action id, and requires the ban tuple
resolved and the champion available. -/
theorem cycle_pick_mem (inp : CycleInput) (st : EngineState) (a : Int) (ch : Nat)
    (cm : Bool) (i : Int)
    (h : NetCall.pickPatch a ch cm i ∈ (cycleStep inp st).calls) :
    a = inp.localPlayerCellId ∧ cm = true ∧ i = (pickTupleOf inp).id ∧
      (banTupleOf inp).comp = true ∧ (banTupleOf inp).ip = false ∧
      inp.grid ch = false := by
  have hmem : NetCall.pickPatch a ch cm i ∈ (cycleStep inp st).calls.filter isPickCall :=
    List.mem_filter.mpr ⟨h, rfl⟩
  rcases cycle_filter_pick_cases inp st with hnil | ⟨ch2, h1, h2, h3, h4, h5, h6⟩
  · rw [hnil] at hmem; exact absurd hmem (by simp)
  · rw [h1] at hmem
    simp only [List.mem_singleton] at hmem
    cases hmem
    exact ⟨rfl, rfl, rfl, h3, h4, h5⟩


/-! Claim theorems. -/

/-- C1, counterexample: the ban PATCH carries no once-per-session guard.
Two consecutive cycles whose observations keep the ban action eligible
(in progress, not completed, champion available, timer not planning) each
issue the ban PATCH, so the "at most once" bound fails on the code. -/
theorem c1_ban_patch_not_once :
    ¬ (countCalls isBanCall (runCycles [banEligibleInp, banEligibleInp] st0).2.1 ≤ 1) := by
  decide

/-- C1, amended: only the pick commit is one-shot.  Across any sequence
of engine cycles none of which observes the Matchmaking phase (the only
reset site of the `locked_champ` flag), a run started with the flag clear
issues at most one pick PATCH, however many cycles observe eligible
conditions; the ban PATCH has no such guard (see the counterexample). -/
theorem c1_pick_committed_at_most_once (inps : List CycleInput) (st : EngineState)
    (hm : ∀ i ∈ inps, classifyPhase i.phase ≠ GameflowPhase.matchmaking)
    (hlk : st.lockedChamp = false) :
    countCalls isPickCall (runCycles inps st).2.1 ≤ 1 :=
  runCycles_pick_once inps st hm hlk

/-- C1 witness: two consecutive pick-eligible ChampSelect cycles issue at
most one pick PATCH. -/
theorem c1_pick_committed_at_most_once_witness :
    (∀ i ∈ [pickEligibleInp, pickEligibleInp],
      classifyPhase i.phase ≠ GameflowPhase.matchmaking) ∧
    st0.lockedChamp = false ∧
    countCalls isPickCall (runCycles [pickEligibleInp, pickEligibleInp] st0).2.1 ≤ 1 :=
  ⟨by decide, by decide,
    c1_pick_committed_at_most_once [pickEligibleInp, pickEligibleInp] st0
      (by decide) (by decide)⟩

/-- C2, counterexample: after a pick commit in ChampSelect, a cycle
observing the Lobby phase (a transition out of ChampSelect) does not
clear the `locked_champ` flag, refuting the reset-on-every-exit claim. -/
theorem c2_flag_survives_leaving_champselect :
    ¬ ((runCycles [pickEligibleInp, lobbyInp] st0).1.lockedChamp = false) := by
  decide

/-- C2, amended: the per-session commit flag is cleared exactly by a
cycle observing Matchmaking; every other non-ChampSelect phase leaves it
unchanged, a ChampSelect cycle never clears it, and the engine tracks no
session identifier at all, so a session-id change cannot reset it. -/
theorem c2_flag_reset_only_on_matchmaking (inp : CycleInput) (st : EngineState) :
    (classifyPhase inp.phase = GameflowPhase.matchmaking →
      (cycleStep inp st).state.lockedChamp = false) ∧
    (classifyPhase inp.phase ≠ GameflowPhase.matchmaking →
      classifyPhase inp.phase ≠ GameflowPhase.champSelect →
      (cycleStep inp st).state.lockedChamp = st.lockedChamp) ∧
    (classifyPhase inp.phase = GameflowPhase.champSelect → st.lockedChamp = true →
      (cycleStep inp st).state.lockedChamp = true) := by
  refine ⟨?_, ?_, ?_⟩
  · intro h
    unfold cycleStep
    rw [h]
  · intro h1 h2
    cases hc : classifyPhase inp.phase
    case matchmaking => exact absurd hc h1
    case champSelect => exact absurd hc h2
    all_goals (unfold cycleStep; rw [hc])
  · intro h hlk
    unfold cycleStep
    rw [h]
    show (champSelectStep inp st).state.lockedChamp = true
    rcases champSelect_pick_cases inp st with ⟨_, hpres⟩ | ⟨ch, _, hset, _, _, _, h6⟩
    · rw [hpres, hlk]
    · exact hset

/-- C2 witness: a Matchmaking cycle clears the set flag, a Lobby cycle
preserves it, and a ChampSelect cycle keeps it set. -/
theorem c2_flag_reset_only_on_matchmaking_witness :
    (cycleStep matchmakingInp stLocked).state.lockedChamp = false ∧
    (cycleStep lobbyInp stLocked).state.lockedChamp = stLocked.lockedChamp ∧
    (cycleStep pickEligibleInp stLocked).state.lockedChamp = true :=
  ⟨(c2_flag_reset_only_on_matchmaking matchmakingInp stLocked).1 (by decide),
   (c2_flag_reset_only_on_matchmaking lobbyInp stLocked).2.1 (by decide) (by decide),
   (c2_flag_reset_only_on_matchmaking pickEligibleInp stLocked).2.2 (by decide) (by decide)⟩

/-- C3: every pick PATCH a cycle issues requires the ban action tuple of
that same cycle to report completed and not in progress, for every input
and state. -/
theorem c3_pick_requires_ban_resolved (inp : CycleInput) (st : EngineState)
    (a : Int) (ch : Nat) (cm : Bool) (i : Int)
    (h : NetCall.pickPatch a ch cm i ∈ (cycleStep inp st).calls) :
    (banTupleOf inp).comp = true ∧ (banTupleOf inp).ip = false :=
  ⟨(cycle_pick_mem inp st a ch cm i h).2.2.2.1,
   (cycle_pick_mem inp st a ch cm i h).2.2.2.2.1⟩

/-- C3 witness: a concrete eligible cycle issues a pick PATCH and its ban
tuple reports completed and not in progress. -/
theorem c3_pick_requires_ban_resolved_witness :
    NetCall.pickPatch 0 5 true 2 ∈ (cycleStep pickEligibleInp st0).calls ∧
    (banTupleOf pickEligibleInp).comp = true ∧ (banTupleOf pickEligibleInp).ip = false :=
  ⟨by decide, c3_pick_requires_ban_resolved pickEligibleInp st0 0 5 true 2 (by decide)⟩

/-- C4: the code (main.rs lines 973-983) unwraps the send and
deserialization results of the gameflow fetch, so a single failed call
panics and terminates the process instead of being contained to the
cycle; a successful fetch completes the cycle without panic. -/
theorem c4_failed_fetch_aborts_process :
    (cycleStepNet (Except.error ()) st0).panicked = some PanicKind.netUnwrap ∧
    (cycleStepNet (Except.ok lobbyInp) st0).panicked = none :=
  ⟨rfl, rfl⟩

/-- C5: for every non-ChampSelect phase value, one engine cycle produces
exactly the status text, role effect, flag effect, accept side effect and
wait duration of the spec phase table. -/
theorem c5_phase_table (inp : CycleInput) (st : EngineState)
    (h : classifyPhase inp.phase ≠ GameflowPhase.champSelect) :
    (cycleStep inp st).state.status = (specPhaseRow (classifyPhase inp.phase)).status ∧
    (cycleStep inp st).state.assignedRole =
      (if (specPhaseRow (classifyPhase inp.phase)).clearsRole then none
        else st.assignedRole) ∧
    (cycleStep inp st).state.lockedChamp =
      (if (specPhaseRow (classifyPhase inp.phase)).clearsFlag then false
        else st.lockedChamp) ∧
    (cycleStep inp st).calls =
      (if (specPhaseRow (classifyPhase inp.phase)).acceptOnToggle && inp.autoAccept
        then [NetCall.acceptPost] else []) ∧
    (cycleStep inp st).wait = (specPhaseRow (classifyPhase inp.phase)).wait ∧
    (cycleStep inp st).panicked = none := by
  cases hc : classifyPhase inp.phase
  case champSelect => exact absurd hc h
  all_goals (unfold cycleStep; rw [hc]; exact ⟨rfl, rfl, rfl, rfl, rfl, rfl⟩)

/-- C5 witness: the InProgress row instantiated concretely. -/
theorem c5_phase_table_witness :
    (cycleStep inProgressInp st0).state.status =
      (specPhaseRow (classifyPhase inProgressInp.phase)).status ∧
    (cycleStep inProgressInp st0).state.assignedRole =
      (if (specPhaseRow (classifyPhase inProgressInp.phase)).clearsRole then none
        else st0.assignedRole) ∧
    (cycleStep inProgressInp st0).state.lockedChamp =
      (if (specPhaseRow (classifyPhase inProgressInp.phase)).clearsFlag then false
        else st0.lockedChamp) ∧
    (cycleStep inProgressInp st0).calls =
      (if (specPhaseRow (classifyPhase inProgressInp.phase)).acceptOnToggle
          && inProgressInp.autoAccept
        then [NetCall.acceptPost] else []) ∧
    (cycleStep inProgressInp st0).wait =
      (specPhaseRow (classifyPhase inProgressInp.phase)).wait ∧
    (cycleStep inProgressInp st0).panicked = none :=
  c5_phase_table inProgressInp st0 (by decide)

/-- C6, counterexample: with slot names Flash and Heal, jungle role, and
neither name Smite, the override does not resolve to (Flash, Smite): it
branches on the session-reported current spell ids, and with the session
reporting current spell1Id = 6 (Ghost) it rewrites the preferences to
(Ghost, Smite), issuing nothing this cycle. -/
theorem c6_override_follows_session_ids :
    ¬ ((cycleStep jungleGhostInp flashHealState).state.selected1 = some "Flash" ∧
       (cycleStep jungleGhostInp flashHealState).state.selected2 = some "Smite") ∧
    (cycleStep jungleGhostInp flashHealState).state.selected1 = some "Ghost" ∧
    (cycleStep jungleGhostInp flashHealState).state.selected2 = some "Smite" ∧
    (cycleStep jungleGhostInp flashHealState).calls = [] := by
  decide

/-- C6, amended: the override branches on the session-reported current
slot ids, not on the chosen names.  When additionally the session reports
current spell1Id = 4 (Flash), the claimed behavior holds in two cycles:
the overriding cycle mutates the stored preferences to (Flash, Smite) and
ends without submitting, and the next cycle with the adjusted pair
submits the single PATCH carrying the Flash and Smite ids. -/
theorem c6_jungle_override_amended :
    (∀ (t2 : Nat) (pos : String) (cat : List SummonerSpell),
      roleHasJungle pos = true →
      spellStep true (some "Flash") (some "Heal") 4 t2 pos cat =
        ⟨some "Flash", some "Smite", [], true, none⟩) ∧
    (∀ (t1 t2 : Nat) (pos : String) (cat : List SummonerSpell) (f s : SummonerSpell),
      cat.find? (fun sp => sp.name == "Flash") = some f →
      cat.find? (fun sp => sp.name == "Smite") = some s →
      spellStep true (some "Flash") (some "Smite") t1 t2 pos cat =
        ⟨some "Flash", some "Smite", [NetCall.loadoutPatch f.key s.key], false, none⟩) := by
  constructor
  · intro t2 pos cat h
    unfold spellStep
    rw [h]
    simp
  · intro t1 t2 pos cat f s hf hs
    unfold spellStep
    cases hr : roleHasJungle pos <;> simp [hf, hs]

/-- C6 witness: the amended behavior at a concrete catalog and role. -/
theorem c6_jungle_override_amended_witness :
    roleHasJungle "jungle" = true ∧
    spellStep true (some "Flash") (some "Heal") 4 9 "jungle"
        [⟨4, "Flash"⟩, ⟨7, "Heal"⟩, ⟨11, "Smite"⟩] =
      ⟨some "Flash", some "Smite", [], true, none⟩ ∧
    spellStep true (some "Flash") (some "Smite") 4 9 "jungle"
        [⟨4, "Flash"⟩, ⟨7, "Heal"⟩, ⟨11, "Smite"⟩] =
      ⟨some "Flash", some "Smite", [NetCall.loadoutPatch 4 11], false, none⟩ :=
  ⟨by decide,
   c6_jungle_override_amended.1 9 "jungle" [⟨4, "Flash"⟩, ⟨7, "Heal"⟩, ⟨11, "Smite"⟩]
     (by decide),
   c6_jungle_override_amended.2 4 9 "jungle" [⟨4, "Flash"⟩, ⟨7, "Heal"⟩, ⟨11, "Smite"⟩]
     ⟨4, "Flash"⟩ ⟨11, "Smite"⟩ (by decide) (by decide)⟩

/-- C7, counterexample: with two queued candidates and the grid reporting
the first one picked-or-banned, the same cycle issues the pick PATCH for
the second candidate: the engine does fall back within one cycle. -/
theorem c7_unavailable_candidate_falls_back :
    fallbackInp.grid 1 = true ∧
    (cycleStep fallbackInp st0).calls = [NetCall.pickPatch 0 2 true 2] := by
  decide

/-- C7, amended: an unavailable candidate is skipped in the sense that no
pick PATCH is ever issued for a champion whose grid status reports
picked-or-banned; but processing falls through to the next queued
candidate in the same cycle (see the counterexample). -/
theorem c7_no_patch_for_unavailable (inp : CycleInput) (st : EngineState)
    (a : Int) (ch : Nat) (cm : Bool) (i : Int)
    (h : NetCall.pickPatch a ch cm i ∈ (cycleStep inp st).calls) :
    inp.grid ch = false :=
  (cycle_pick_mem inp st a ch cm i h).2.2.2.2.2

/-- C7 witness: the concrete fallback cycle patches champion 2, whose
grid status reports available. -/
theorem c7_no_patch_for_unavailable_witness :
    NetCall.pickPatch 0 2 true 2 ∈ (cycleStep fallbackInp st0).calls ∧
    fallbackInp.grid 2 = false :=
  ⟨by decide, c7_no_patch_for_unavailable fallbackInp st0 0 2 true 2 (by decide)⟩

/-- C8, counterexample: there is no one-shot guard on the accept POST.
Two consecutive cycles observing ReadyCheck with auto-accept on issue two
accept POSTs, refuting "exactly once per ready check". -/
theorem c8_accept_reposted_every_cycle :
    ¬ (countCalls isAcceptCall (runCycles [readyAcceptInp, readyAcceptInp] st0).2.1 ≤ 1) := by
  decide

/-- C8, amended: each ReadyCheck cycle is deterministic in its inputs:
it issues exactly one accept POST when auto-accept is on and none
otherwise, always ends with status "Match Found", and leaves the commit
flag unchanged; repeating the cycle repeats the POST rather than
suppressing it. -/
theorem c8_ready_check_per_cycle (inp : CycleInput) (st : EngineState)
    (h : classifyPhase inp.phase = GameflowPhase.readyCheck) :
    (cycleStep inp st).calls =
      (if inp.autoAccept then [NetCall.acceptPost] else []) ∧
    (cycleStep inp st).state.status = "Match Found" ∧
    (cycleStep inp st).state.lockedChamp = st.lockedChamp ∧
    (cycleStep inp st).panicked = none := by
  unfold cycleStep
  rw [h]
  exact ⟨rfl, rfl, rfl, rfl⟩

/-- C8 witness: the ReadyCheck row instantiated with auto-accept on. -/
theorem c8_ready_check_per_cycle_witness :
    (cycleStep readyAcceptInp st0).calls =
      (if readyAcceptInp.autoAccept then [NetCall.acceptPost] else []) ∧
    (cycleStep readyAcceptInp st0).state.status = "Match Found" ∧
    (cycleStep readyAcceptInp st0).state.lockedChamp = st0.lockedChamp ∧
    (cycleStep readyAcceptInp st0).panicked = none :=
  c8_ready_check_per_cycle readyAcceptInp st0 (by decide)

/-- C9: with loadout auto-selection on and either slot name unset, the
cycle issues no loadout PATCH and the presentation layer asserts the
both-slots-required warning; and in every cycle at most one loadout PATCH
is issued, always carrying both slot ids together (the PATCH body has
both fields by construction). -/
theorem c9_loadout_single_patch_or_none (inp : CycleInput) (st : EngineState) :
    (inp.spellSel = true → st.selected1 = none ∨ st.selected2 = none →
      ((cycleStep inp st).calls.filter isLoadoutCall = [] ∧
        bothSlotsWarning inp.spellSel st.selected1 st.selected2 = true)) ∧
    ((cycleStep inp st).calls.filter isLoadoutCall).length ≤ 1 := by
  refine ⟨fun hsel hun => ⟨cycle_loadout_unset inp st hun, ?_⟩, cycle_loadout_len inp st⟩
  rcases hun with h | h <;> simp [bothSlotsWarning, h, hsel]

/-- C9 witness: a ChampSelect cycle with auto-selection on and no slot
chosen issues no loadout PATCH and asserts the warning. -/
theorem c9_loadout_single_patch_or_none_witness :
    ((cycleStep unsetSlotInp st0).calls.filter isLoadoutCall = [] ∧
      bothSlotsWarning unsetSlotInp.spellSel st0.selected1 st0.selected2 = true) ∧
    ((cycleStep unsetSlotInp st0).calls.filter isLoadoutCall).length ≤ 1 :=
  ⟨(c9_loadout_single_patch_or_none unsetSlotInp st0).1 (by decide) (Or.inl (by decide)),
   (c9_loadout_single_patch_or_none unsetSlotInp st0).2⟩

/-- C10: a ChampSelect cycle with auto pick/ban on and a pick queue
holding exactly one empty-name skip placeholder panics at the
unconditional second-index unwrap (main.rs line 1206), while the same
queue padded to two empty entries completes the cycle: the engine step is
not total on length-one queues. -/
theorem c10_single_empty_pick_panics :
    (cycleStep singleSkipInp st0).panicked = some PanicKind.pickIndex ∧
    singleSkipInp.championPicks = [(0, "")] ∧
    (cycleStep { singleSkipInp with championPicks := [(0, ""), (0, "")] } st0).panicked
      = none := by
  decide

end CircuitWatcher
